import Mathlib

/-!
Verification of the `port-wait` core (src/port_wait/waiter.py and the
aggregation logic of src/port_wait/cli.py) against its specification.

Modelling conventions:
* Wall-clock durations are rationals (`ℚ`).  Python floats such as `0.5`
  and `5.0` are dyadic, so the backoff arithmetic of the source is exact
  in `ℚ`.
* The network probes `check_tcp_port` / `check_http_endpoint` perform I/O;
  they are modelled by an oracle `probe : Nat → Bool` giving the result of
  the n-th attempt and a duration oracle `dur : Nat → ℚ` giving the time
  the n-th probe call consumes.  All non-blocking work (parsing, branch
  tests, returns) is treated as instantaneous; the clock advances only by
  probe durations and by `time.sleep(interval)`.
* The `while` loop of `wait_for_target` is embedded with an explicit fuel
  bound on the number of iterations; `none` means the run needs more fuel.
  Theorems are stated for every run that returns a value, and each is
  exercised on concrete inputs.
-/

/-- Model of `WaitResult.__init__` (waiter.py): the outcome record of one
target, with `elapsed` in seconds as a rational. -/
structure WaitResult where
  success : Bool
  target : String
  attempts : Nat
  elapsed : ℚ
  error : Option String
deriving DecidableEq, Repr

/-- Values occurring in the dictionary built by `WaitResult.to_dict`. -/
inductive PyValue where
  | b : Bool → PyValue
  | s : String → PyValue
  | n : Nat → PyValue
  | q : ℚ → PyValue
  | null : PyValue
deriving DecidableEq, Repr

/-- Round-half-to-even to an integer, the rounding Python's `round` applies
to the scaled value. -/
def roundHalfEven (x : ℚ) : ℤ :=
  let f := ⌊x⌋
  let r := x - (f : ℚ)
  if r < 1/2 then f
  else if 1/2 < r then f + 1
  else if f % 2 = 0 then f else f + 1

/-- Model of Python's `round(x, 2)`: round to the nearest multiple of
`1/100`, ties to even. -/
def round2 (x : ℚ) : ℚ :=
  (roundHalfEven (x * 100) : ℚ) / 100

/-- Model of `WaitResult.to_dict` (waiter.py lines 18-25).  A Python dict
preserves insertion order, so the dict is an ordered association list. -/
def WaitResult.to_dict (r : WaitResult) : List (String × PyValue) :=
  [ ("success", PyValue.b r.success),
    ("target", PyValue.s r.target),
    ("attempts", PyValue.n r.attempts),
    ("elapsed_seconds", PyValue.q (round2 r.elapsed)),
    ("error", match r.error with
      | none => PyValue.null
      | some e => PyValue.s e) ]

/-- Model of `PortWaiter.__init__` (waiter.py lines 28-34): the per-waiter
configuration, all durations in seconds. -/
structure PortWaiter where
  timeout : ℚ := 30
  initial_interval : ℚ := 1/2
  max_interval : ℚ := 5
  connection_timeout : ℚ := 2
deriving DecidableEq, Repr

/-- Target dispatch test of `wait_for_target` (waiter.py line 68):
`target.startswith("http://") or target.startswith("https://")`, a prefix
test on the character sequence. -/
def isHttpTarget (t : String) : Bool :=
  "http://".data.isPrefixOf t.data || "https://".data.isPrefixOf t.data

/-- Split a character list at its LAST colon, the behaviour of Python's
`target.rsplit(":", 1)` when unpacked into two variables: `none` models the
`ValueError` raised when the string holds no colon. -/
def rsplitColonAux : List Char → Option (List Char × List Char)
  | [] => none
  | c :: cs =>
    match rsplitColonAux cs with
    | some (h, p) => some (c :: h, p)
    | none => if c = ':' then some ([], cs) else none

/-- String-level wrapper of `rsplitColonAux`, modelling
`host, port = target.rsplit(":", 1)`. -/
def rsplitColon (t : String) : Option (String × String) :=
  (rsplitColonAux t.data).map fun hp => (String.mk hp.1, String.mk hp.2)

/-- After the leading digit of a Python integer literal: digits, in which a
single underscore may stand between two digits (`int("1_0")` is legal,
`int("1__0")` and `int("1_")` are not). -/
def pyIntDigitsRest : List Char → Bool
  | [] => true
  | '_' :: [] => false
  | '_' :: c :: cs => c.isDigit && pyIntDigitsRest cs
  | c :: cs => c.isDigit && pyIntDigitsRest cs

/-- An optional sign before the digits of a Python integer literal. -/
def stripSign : List Char → List Char
  | '+' :: cs => cs
  | '-' :: cs => cs
  | cs => cs

/-- Model of whether `int(s)` succeeds (waiter.py line 77): optional
surrounding whitespace, optional sign, then a nonempty digit run with
underscores only between digits.  Only the ASCII forms are modelled. -/
def pyIntValid (l : List Char) : Bool :=
  match stripSign (((l.dropWhile Char.isWhitespace).reverse.dropWhile
      Char.isWhitespace).reverse) with
  | [] => false
  | c :: cs => c.isDigit && pyIntDigitsRest cs

/-- Whether the `host, port = target.rsplit(":", 1); int(port)` parse of the
TCP branch succeeds for `t`. -/
def tcpParseOk (t : String) : Bool :=
  match rsplitColon t with
  | some hp => pyIntValid hp.2.data
  | none => false

/-- A valid TCP target: not HTTP-dispatched and its `host:port` parse
succeeds. -/
def validTcpTarget (t : String) : Bool :=
  !isHttpTarget t && tcpParseOk t

/-- The parse-error message of waiter.py line 81. -/
def invalidTargetMessage : String :=
  "Invalid target format. Use host:port or http(s)://url"

/-- The timeout message of waiter.py line 93, `"Timeout after <timeout>s"`.
Python renders the float (`"30.0"`); the model renders the rational. -/
def timeoutMessage (t : ℚ) : String :=
  "Timeout after " ++ toString t ++ "s"

/-- Observable output of one `wait_for_target` run: the returned
`WaitResult` together with the number of `check_tcp_port` calls, the number
of `check_http_endpoint` calls, and the list of intervals passed to
`time.sleep`, in order. -/
structure LoopOut where
  result : WaitResult
  tcpCalls : Nat
  httpCalls : Nat
  sleeps : List ℚ
deriving DecidableEq, Repr

/-- Model of the `while` loop of `PortWaiter.wait_for_target`
(waiter.py lines 60-93).  State: remaining fuel, `attempts`, `elapsed`
(seconds since `start_time`), current `interval`, and the instrumentation
counters of `LoopOut`.  Branches mirror the source: the loop guard
`time.time() - start_time < self.timeout`, `attempts += 1`, the HTTP-prefix
dispatch, the `rsplit`/`int` parse with its `ValueError` handler, the
success return, then `time.sleep(interval)` and
`interval = min(interval * 2, self.max_interval)`; on guard failure the
timeout result.  `none` means the run's iteration count exceeds the fuel. -/
def waitLoop (w : PortWaiter) (target : String) (probe : Nat → Bool)
    (dur : Nat → ℚ) :
    Nat → Nat → ℚ → ℚ → Nat → Nat → List ℚ → Option LoopOut
  | 0, _, _, _, _, _, _ => none
  | fuel + 1, attempts, elapsed, interval, tcpCalls, httpCalls, sleeps =>
    if elapsed < w.timeout then
      let a := attempts + 1
      if isHttpTarget target then
        let e := elapsed + dur a
        if probe a then
          some ⟨⟨true, target, a, e, none⟩, tcpCalls, httpCalls + 1, sleeps⟩
        else
          waitLoop w target probe dur fuel a (e + interval)
            (min (interval * 2) w.max_interval) tcpCalls (httpCalls + 1)
            (sleeps ++ [interval])
      else
        match rsplitColon target with
        | none =>
          some ⟨⟨false, target, a, elapsed, some invalidTargetMessage⟩,
            tcpCalls, httpCalls, sleeps⟩
        | some hp =>
          if pyIntValid hp.2.data then
            let e := elapsed + dur a
            if probe a then
              some ⟨⟨true, target, a, e, none⟩, tcpCalls + 1, httpCalls,
                sleeps⟩
            else
              waitLoop w target probe dur fuel a (e + interval)
                (min (interval * 2) w.max_interval) (tcpCalls + 1) httpCalls
                (sleeps ++ [interval])
          else
            some ⟨⟨false, target, a, elapsed, some invalidTargetMessage⟩,
              tcpCalls, httpCalls, sleeps⟩
    else
      some ⟨⟨false, target, attempts, elapsed,
        some (timeoutMessage w.timeout)⟩, tcpCalls, httpCalls, sleeps⟩

/-- Model of `PortWaiter.wait_for_target`: the loop started with
`attempts = 0`, `elapsed = 0`, `interval = self.initial_interval`. -/
def wait_for_target (w : PortWaiter) (target : String) (probe : Nat → Bool)
    (dur : Nat → ℚ) (fuel : Nat) : Option LoopOut :=
  waitLoop w target probe dur fuel 0 0 w.initial_interval 0 0 []

/-- The capped exponential backoff sequence: `backoff init mx k` is the
interval slept after the (k+1)-th failed attempt. -/
def backoff (init mx : ℚ) : Nat → ℚ
  | 0 => init
  | k + 1 => min (backoff init mx k * 2) mx

/-- Model of the `for future in as_completed(futures)` loop of
`PortWaiter.wait_for_multiple` (waiter.py lines 103-110).  `completed` is
the sequence of per-target `WaitResult`s in the order the worker threads
finish; `acc` is the `results` list built so far.  In ANY mode
(`all_mode = false`) the loop returns as soon as a successful result is
appended, modelling `executor.shutdown(wait=False, cancel_futures=True);
return results`; the unread tail of `completed` stands for the cancelled
still-running loops. -/
def as_completed_loop (all_mode : Bool) :
    List WaitResult → List WaitResult → List WaitResult
  | [], acc => acc
  | r :: rest, acc =>
    let acc2 := acc ++ [r]
    if !all_mode && r.success then acc2
    else as_completed_loop all_mode rest acc2

/-- Model of `PortWaiter.wait_for_multiple` (waiter.py lines 95-112).
`outcomes` lists, one per submitted target, the `WaitResult` its
`wait_for_target` call produces; `completed` is the same collection in
completion order.  `ThreadPoolExecutor(max_workers=len(targets))` raises
`ValueError("max_workers must be greater than 0")` when the target list is
empty, modelled by the `Except.error` branch. -/
def wait_for_multiple (outcomes completed : List WaitResult)
    (all_mode : Bool) : Except String (List WaitResult) :=
  if outcomes.length = 0 then
    Except.error "max_workers must be greater than 0"
  else
    Except.ok (as_completed_loop all_mode completed [])

/-- Whether a `wait_for_multiple` call returned normally (no exception). -/
def exceptOk (x : Except String (List WaitResult)) : Bool :=
  match x with
  | Except.ok _ => true
  | Except.error _ => false

/-- Model of the overall-success aggregation of `cli.py` lines 63-65:
`any_success if any_mode else all_success`. -/
def overall_success (any_mode : Bool) (results : List WaitResult) : Bool :=
  if any_mode then results.any (fun r => r.success)
  else results.all (fun r => r.success)

/-- Concrete sample outcome used by the C4 witness. -/
def okResult4 : WaitResult := ⟨true, "localhost:5432", 1, 1/2, none⟩

/-- Output of the C3 counterexample run (`timeout = 0`). -/
def out3 : LoopOut :=
  ⟨⟨false, "localhost:5432", 0, 0, some (timeoutMessage 0)⟩, 0, 0, []⟩

/-- Output of the C5 witness run. -/
def out5 : LoopOut := ⟨⟨true, "localhost:5432", 1, 0, none⟩, 1, 0, []⟩

/-- Waiter configuration of the C3 amended-claim witness. -/
def w3 : PortWaiter := { timeout := 1 }

/-- Output of the C3 amended-claim witness run. -/
def out3w : LoopOut :=
  ⟨⟨false, "localhost:9999", 2, 3/2, some (timeoutMessage 1)⟩, 2, 0, [1/2, 1]⟩

/-- Output of the C8 witness run. -/
def out8 : LoopOut :=
  ⟨⟨false, "invalid-target", 1, 0, some invalidTargetMessage⟩, 0, 0, []⟩

/-- Waiter configuration of the C6 witness. -/
def w6 : PortWaiter := { timeout := 1 }

/-- Output of the C6 witness run. -/
def out6 : LoopOut :=
  ⟨⟨false, "db:5432", 2, 3/2, some (timeoutMessage 1)⟩, 2, 0, [1/2, 1]⟩

/-- Waiter configuration of the C7 witness. -/
def w7 : PortWaiter := { timeout := 2 }

/-- Output of the C7 witness run. -/
def out7 : LoopOut :=
  ⟨⟨false, "web:6379", 3, 7/2, some (timeoutMessage 2)⟩, 3, 0, [1/2, 1, 2]⟩

/-- Output of the C10 witness run. -/
def out10 : LoopOut :=
  ⟨⟨true, "http://api:8080/health", 1, 0, none⟩, 0, 1, []⟩

/-- The fast, successful outcome of the C1 witness. -/
def fast1 : WaitResult := ⟨true, "localhost:5432", 1, 1/2, none⟩

/-- The slow, timed-out outcome of the C1 witness. -/
def slow1 : WaitResult :=
  ⟨false, "localhost:9999", 5, 30, some (timeoutMessage 30)⟩

/-- The successful outcome of the C2 witness. -/
def ok2 : WaitResult := ⟨true, "db:5432", 1, 1/2, none⟩

/-- The timed-out outcome of the C2 witness. -/
def bad2 : WaitResult :=
  ⟨false, "web:9999", 5, 30, some (timeoutMessage 30)⟩

/-- The digit value of a Python integer literal body, underscores
skipped. -/
def pyDigitsValue (l : List Char) : Nat :=
  l.foldl
    (fun acc c => if c = '_' then acc else acc * 10 + (c.toNat - '0'.toNat))
    0

/-- Model of the value `int(s)` returns when it succeeds (`none` when the
parse fails): the sign applied to the digit value. -/
def pyIntValue (l : List Char) : Option Int :=
  if pyIntValid l then
    match ((l.dropWhile Char.isWhitespace).reverse.dropWhile
        Char.isWhitespace).reverse with
    | '-' :: cs => some (-(pyDigitsValue cs : Int))
    | '+' :: cs => some ((pyDigitsValue cs : Int))
    | cs => some ((pyDigitsValue cs : Int))
  else none

/-- Whether probing the TCP target raises Python's `OverflowError`:
`sock.connect_ex((host, port))` demands `0 ≤ port ≤ 65535` and raises
`OverflowError` otherwise — an exception caught neither by
`check_tcp_port`'s `except (socket.gaierror, socket.timeout, OSError)`
(waiter.py line 43, and `OverflowError` is an `ArithmeticError`) nor by
`wait_for_target`'s `except ValueError` (waiter.py line 79), so it
escapes the worker. -/
def tcpPortOutOfRange (t : String) : Bool :=
  match rsplitColon t with
  | some hp =>
    match pyIntValue hp.2.data with
    | some p => decide (p < 0) || decide (65535 < p)
    | none => false
  | none => false

/-- The `OverflowError` such a worker propagates, as a string-valued
exception. -/
def overflowErrorMessage : String := "OverflowError: port must be 0-65535"

/-- Whether a worker's `wait_for_target` call returned rather than
raised. -/
def workerOk (x : Except String WaitResult) : Bool :=
  match x with
  | Except.ok _ => true
  | Except.error _ => false

/-- Exception-aware model of the `for future in as_completed(futures)`
loop of `wait_for_multiple` (waiter.py lines 103-110): each element of
the completion sequence is either the worker's returned `WaitResult` or
the exception its `wait_for_target` call raised, which
`future.result()` (waiter.py line 105) re-raises out of
`wait_for_multiple`. -/
def as_completed_loop_exc (all_mode : Bool) :
    List (Except String WaitResult) → List WaitResult →
      Except String (List WaitResult)
  | [], acc => Except.ok acc
  | Except.error e :: _, _ => Except.error e
  | Except.ok r :: rest, acc =>
    let acc2 := acc ++ [r]
    if !all_mode && r.success then Except.ok acc2
    else as_completed_loop_exc all_mode rest acc2

/-- Exception-aware model of `PortWaiter.wait_for_multiple` (waiter.py
lines 95-112), refining `wait_for_multiple`: worker exceptions are kept
rather than collapsed.  `outcomes` lists one entry per submitted target
(its worker's return value or exception); `completed` is the same
collection in completion order. -/
def wait_for_multiple_exc
    (outcomes completed : List (Except String WaitResult))
    (all_mode : Bool) : Except String (List WaitResult) :=
  if outcomes.length = 0 then
    Except.error "max_workers must be greater than 0"
  else as_completed_loop_exc all_mode completed []

/-- The loop runs out of fuel only by recursing, so fuel zero returns
`none`. -/
theorem waitLoop_zero (w : PortWaiter) (t : String) (probe : Nat → Bool)
    (dur : Nat → ℚ) (a : Nat) (e i : ℚ) (tc hc : Nat) (sl : List ℚ) :
    waitLoop w t probe dur 0 a e i tc hc sl = none := rfl

/-- Once at least one attempt is recorded, every outcome the loop returns
records at least one attempt. -/
theorem waitLoop_attempts_le (w : PortWaiter) (t : String)
    (probe : Nat → Bool) (dur : Nat → ℚ) :
    ∀ (fuel a : Nat) (e i : ℚ) (tc hc : Nat) (sl : List ℚ) (out : LoopOut),
      1 ≤ a → waitLoop w t probe dur fuel a e i tc hc sl = some out →
      1 ≤ out.result.attempts := by
  intro fuel
  induction fuel with
  | zero => intro a e i tc hc sl out _ h; exact absurd h (by simp [waitLoop])
  | succ n ih =>
    intro a e i tc hc sl out ha h
    simp only [waitLoop] at h
    split at h
    · split at h
      · split at h
        · exact Option.some.inj h ▸ Nat.le_add_left 1 a
        · exact ih (a + 1) _ _ _ _ _ out (Nat.le_add_left 1 a) h
      · split at h
        · exact Option.some.inj h ▸ Nat.le_add_left 1 a
        · split at h
          · split at h
            · exact Option.some.inj h ▸ Nat.le_add_left 1 a
            · exact ih (a + 1) _ _ _ _ _ out (Nat.le_add_left 1 a) h
          · exact Option.some.inj h ▸ Nat.le_add_left 1 a
    · exact Option.some.inj h ▸ ha

/-- Claim C3, as stated, is false: with `overallTimeout = 0` the loop guard
`time.time() - start_time < self.timeout` fails before the first iteration,
so `wait_for_target` returns an Outcome with `attempts = 0` — no probe is
attempted even though the probe oracle always succeeds and the target is
valid. -/
theorem c3_counterexample :
    wait_for_target { timeout := 0 } "localhost:5432" (fun _ => true)
      (fun _ => 0) 1 = some out3 ∧ out3.result.attempts = 0 :=
  ⟨by decide, rfl⟩

/-- Claim C3 (amended): for every target string and every configuration
whose `overallTimeout` is positive, any outcome `wait_for_target` returns
has `attempts ≥ 1`: at least one probe attempt (or the parse of the
target) happens before the loop gives up. -/
theorem c3_attempts_pos (w : PortWaiter) (t : String) (probe : Nat → Bool)
    (dur : Nat → ℚ) (fuel : Nat) (out : LoopOut) (hT : 0 < w.timeout)
    (h : wait_for_target w t probe dur fuel = some out) :
    1 ≤ out.result.attempts := by
  cases fuel with
  | zero => exact absurd h (by simp [wait_for_target, waitLoop])
  | succ n =>
    simp only [wait_for_target, waitLoop, Nat.zero_add] at h
    rw [if_pos hT] at h
    split at h
    · split at h
      · exact Option.some.inj h ▸ Nat.le_refl 1
      · exact waitLoop_attempts_le w t probe dur n 1 _ _ _ _ _ out
          (Nat.le_refl 1) h
    · split at h
      · exact Option.some.inj h ▸ Nat.le_refl 1
      · split at h
        · split at h
          · exact Option.some.inj h ▸ Nat.le_refl 1
          · exact waitLoop_attempts_le w t probe dur n 1 _ _ _ _ _ out
              (Nat.le_refl 1) h
        · exact Option.some.inj h ▸ Nat.le_refl 1

unseal Rat.add Rat.mul Rat.inv Rat.sub in
/-- Witness for the amended C3 on a concrete run: a failing probe with
`timeout = 1` returns after two attempts, so `attempts ≥ 1`. -/
theorem c3_witness : 0 < w3.timeout ∧ 1 ≤ out3w.result.attempts :=
  ⟨by decide,
   c3_attempts_pos w3 "localhost:9999" (fun _ => false) (fun _ => 0) 3 out3w
     (by decide) (by decide)⟩

/-- Claim C4, as stated, is false on the empty target list:
`wait_for_multiple` enters `ThreadPoolExecutor(max_workers=len(targets))`,
which raises `ValueError("max_workers must be greater than 0")` when
`targets` is empty, instead of returning a list of Outcomes. -/
theorem c4_counterexample :
    wait_for_multiple [] [] true =
      Except.error "max_workers must be greater than 0" := rfl

/-- When every completed worker returned normally, the collection loop
returns normally. -/
theorem as_completed_loop_exc_ok (m : Bool) :
    ∀ (l : List (Except String WaitResult)) (acc : List WaitResult),
      (∀ x ∈ l, workerOk x = true) →
      exceptOk (as_completed_loop_exc m l acc) = true := by
  intro l
  induction l with
  | nil => intro acc _; rfl
  | cons x rest ih =>
    intro acc hok
    cases x with
    | error e =>
      have hx := hok _ (List.mem_cons_self _ _)
      simp [workerOk] at hx
    | ok r =>
      simp only [as_completed_loop_exc]
      split
      · rfl
      · exact ih (acc ++ [r])
          (fun y hy => hok y (List.mem_cons_of_mem _ hy))

/-- Claim C4 (amended): `wait_for_multiple` raises `ValueError` on the
empty target list and re-raises, through `future.result()`, any exception
a worker's `wait_for_target` call raises — as happens for
`"localhost:70000"`, whose parsed port exceeds 65535 so that `connect_ex`
raises an `OverflowError` no `except` clause on the way catches; for
every non-empty target list all of whose workers return normally, it
never raises: it returns a list of Outcomes (complete in ALL mode,
possibly partial in ANY mode). -/
theorem c4_exception_behaviour
    (outcomes completed : List (Except String WaitResult)) (m : Bool)
    (hne : outcomes ≠ [])
    (hok : ∀ x ∈ completed, workerOk x = true) :
    exceptOk (wait_for_multiple_exc outcomes completed m) = true ∧
    wait_for_multiple_exc [] [] m =
      Except.error "max_workers must be greater than 0" ∧
    tcpPortOutOfRange "localhost:70000" = true ∧
    wait_for_multiple_exc [Except.error overflowErrorMessage]
        [Except.error overflowErrorMessage] m =
      Except.error overflowErrorMessage := by
  refine ⟨?_, rfl, by decide, rfl⟩
  rw [wait_for_multiple_exc,
    if_neg (fun hlen => hne (List.length_eq_zero.mp hlen))]
  exact as_completed_loop_exc_ok m completed [] hok

/-- Witness for the amended C4 at a one-element target list whose worker
returns. -/
theorem c4_witness :
    exceptOk (wait_for_multiple_exc [Except.ok okResult4]
      [Except.ok okResult4] false) = true ∧
    wait_for_multiple_exc [] [] false =
      Except.error "max_workers must be greater than 0" ∧
    tcpPortOutOfRange "localhost:70000" = true ∧
    wait_for_multiple_exc [Except.error overflowErrorMessage]
        [Except.error overflowErrorMessage] false =
      Except.error overflowErrorMessage :=
  c4_exception_behaviour [Except.ok okResult4] [Except.ok okResult4] false
    (List.cons_ne_nil _ _) (by decide)

/-- Claim C5: for every valid TCP target, if the probe succeeds on its
first invocation and the overall timeout is positive, `wait_for_target`
returns a successful Outcome after exactly one attempt, with no error. -/
theorem c5_first_probe_success (w : PortWaiter) (t : String)
    (probe : Nat → Bool) (dur : Nat → ℚ) (fuel : Nat) (out : LoopOut)
    (hv : validTcpTarget t = true) (hp1 : probe 1 = true)
    (hT : 0 < w.timeout)
    (h : wait_for_target w t probe dur fuel = some out) :
    out.result.success = true ∧ out.result.attempts = 1 ∧
      out.result.error = none := by
  cases fuel with
  | zero => exact absurd h (by simp [wait_for_target, waitLoop])
  | succ n =>
    rw [validTcpTarget, Bool.and_eq_true, Bool.not_eq_true'] at hv
    obtain ⟨hh, hp⟩ := hv
    rw [tcpParseOk] at hp
    simp only [wait_for_target, waitLoop, Nat.zero_add] at h
    rw [if_pos hT] at h
    split at h
    · next hcond => exact absurd hcond (by simp [hh])
    · split at h
      · next heq => rw [heq] at hp; exact absurd hp (by simp)
      · next pr heq =>
        rw [heq] at hp
        have hp2 : pyIntValid pr.2.data = true := hp
        rw [if_pos hp2] at h
        exact Option.some.inj h ▸ ⟨rfl, rfl, rfl⟩

unseal Rat.add Rat.mul Rat.inv Rat.sub in
/-- Witness for C5 on a concrete run against `localhost:5432` with the
probe stubbed to succeed. -/
theorem c5_witness :
    out5.result.success = true ∧ out5.result.attempts = 1 ∧
      out5.result.error = none :=
  c5_first_probe_success {} "localhost:5432" (fun _ => true) (fun _ => 0) 1
    out5 (by decide) rfl (by decide) (by decide)

/-- Claim C8: for every malformed non-HTTP target (its
`host, port = target.rsplit(":", 1); int(port)` parse fails) and positive
timeout, `wait_for_target` returns a failed Outcome carrying the
"Invalid target format" message, and neither `check_tcp_port` nor
`check_http_endpoint` is ever invoked. -/
theorem c8_invalid_target (w : PortWaiter) (t : String)
    (probe : Nat → Bool) (dur : Nat → ℚ) (fuel : Nat) (out : LoopOut)
    (hh : isHttpTarget t = false) (hp : tcpParseOk t = false)
    (hT : 0 < w.timeout)
    (h : wait_for_target w t probe dur fuel = some out) :
    out.result.success = false ∧
      out.result.error = some invalidTargetMessage ∧
      out.tcpCalls = 0 ∧ out.httpCalls = 0 ∧
      "Invalid target format".data <+: invalidTargetMessage.data := by
  cases fuel with
  | zero => exact absurd h (by simp [wait_for_target, waitLoop])
  | succ n =>
    rw [tcpParseOk] at hp
    simp only [wait_for_target, waitLoop, Nat.zero_add] at h
    rw [if_pos hT] at h
    split at h
    · next hcond => exact absurd hcond (by simp [hh])
    · split at h
      · exact Option.some.inj h ▸ ⟨rfl, rfl, rfl, rfl, by decide⟩
      · next pr heq =>
        rw [heq] at hp
        have hp2 : pyIntValid pr.2.data = false := hp
        rw [if_neg (by simp [hp2])] at h
        exact Option.some.inj h ▸ ⟨rfl, rfl, rfl, rfl, by decide⟩

unseal Rat.add Rat.mul Rat.inv Rat.sub in
/-- Witness for C8 on the spec's own example, the colon-free string
`"invalid-target"`. -/
theorem c8_witness :
    out8.result.success = false ∧
      out8.result.error = some invalidTargetMessage ∧
      out8.tcpCalls = 0 ∧ out8.httpCalls = 0 ∧
      "Invalid target format".data <+: invalidTargetMessage.data :=
  c8_invalid_target {} "invalid-target" (fun _ => true) (fun _ => 0) 1 out8
    (by decide) (by decide) (by decide) (by decide)

/-- Claim C9: the dictionary built by `WaitResult.to_dict` has exactly the
keys `success, target, attempts, elapsed_seconds, error`, in insertion
order; the first, second, third and fifth values equal the Outcome's
fields (`None` for a missing error) and `elapsed_seconds` is the `elapsed`
field rounded to two decimal places. -/
theorem c9_to_dict_shape (r : WaitResult) :
    r.to_dict.map Prod.fst =
      ["success", "target", "attempts", "elapsed_seconds", "error"] ∧
    r.to_dict.lookup "success" = some (PyValue.b r.success) ∧
    r.to_dict.lookup "target" = some (PyValue.s r.target) ∧
    r.to_dict.lookup "attempts" = some (PyValue.n r.attempts) ∧
    r.to_dict.lookup "elapsed_seconds" =
      some (PyValue.q (round2 r.elapsed)) ∧
    r.to_dict.lookup "error" =
      some (match r.error with
        | none => PyValue.null
        | some e => PyValue.s e) :=
  ⟨rfl, rfl, rfl, rfl, rfl, rfl⟩

/-- When every probe fails and the target parses, every outcome the loop
returns is the timeout outcome: failed, with `elapsed` at least the
configured timeout and the timeout message. -/
theorem waitLoop_always_fail (w : PortWaiter) (t : String)
    (probe : Nat → Bool) (dur : Nat → ℚ) (hpf : ∀ n, probe n = false)
    (hparse : isHttpTarget t = true ∨ tcpParseOk t = true) :
    ∀ (fuel a : Nat) (e i : ℚ) (tc hc : Nat) (sl : List ℚ) (out : LoopOut),
      waitLoop w t probe dur fuel a e i tc hc sl = some out →
      out.result.success = false ∧ w.timeout ≤ out.result.elapsed ∧
        out.result.error = some (timeoutMessage w.timeout) := by
  intro fuel
  induction fuel with
  | zero => intro a e i tc hc sl out h; exact absurd h (by simp [waitLoop])
  | succ n ih =>
    intro a e i tc hc sl out h
    simp only [waitLoop] at h
    split at h
    · split at h
      · rw [if_neg (by simp [hpf (a + 1)])] at h
        exact ih (a + 1) _ _ _ _ _ out h
      · next hh =>
        have hpar : tcpParseOk t = true := hparse.resolve_left hh
        rw [tcpParseOk] at hpar
        split at h
        · next heq => rw [heq] at hpar; exact absurd hpar (by simp)
        · next pr heq =>
          rw [heq] at hpar
          have hp2 : pyIntValid pr.2.data = true := hpar
          rw [if_pos hp2, if_neg (by simp [hpf (a + 1)])] at h
          exact ih (a + 1) _ _ _ _ _ out h
    · next hge =>
      exact Option.some.inj h ▸ ⟨rfl, le_of_not_lt hge, rfl⟩

/-- The timeout message both contains the word "Timeout" and embeds the
rendering of the configured timeout value. -/
theorem timeoutMessage_parts (q : ℚ) :
    "Timeout".data <:+: (timeoutMessage q).data ∧
    (toString q).data <:+: (timeoutMessage q).data := by
  constructor
  · apply List.IsPrefix.isInfix
    refine ⟨" after ".data ++ ((toString q).data ++ "s".data), ?_⟩
    rw [timeoutMessage, String.data_append, String.data_append]
    rw [show ("Timeout after ").data = "Timeout".data ++ " after ".data
      from rfl]
    simp [List.append_assoc]
  · exact ⟨"Timeout after ".data, "s".data, by
      rw [timeoutMessage, String.data_append, String.data_append]⟩

/-- Claim C6: for every target that parses (HTTP-dispatched or a valid
`host:port`), if every probe fails then any Outcome `wait_for_target`
returns is failed, its `elapsed` is at least the configured timeout `T`,
and its error is the timeout message, which contains "Timeout" and the
rendering of `T`. -/
theorem c6_always_fail_times_out (w : PortWaiter) (t : String)
    (probe : Nat → Bool) (dur : Nat → ℚ) (fuel : Nat) (out : LoopOut)
    (hpf : ∀ n, probe n = false)
    (hparse : isHttpTarget t = true ∨ tcpParseOk t = true)
    (h : wait_for_target w t probe dur fuel = some out) :
    out.result.success = false ∧ w.timeout ≤ out.result.elapsed ∧
      out.result.error = some (timeoutMessage w.timeout) ∧
      "Timeout".data <:+: (timeoutMessage w.timeout).data ∧
      (toString w.timeout).data <:+: (timeoutMessage w.timeout).data := by
  obtain ⟨h1, h2, h3⟩ :=
    waitLoop_always_fail w t probe dur hpf hparse fuel 0 0
      w.initial_interval 0 0 [] out h
  obtain ⟨h4, h5⟩ := timeoutMessage_parts w.timeout
  exact ⟨h1, h2, h3, h4, h5⟩

unseal Rat.add Rat.mul Rat.inv Rat.sub in
/-- Witness for C6 on a concrete run: an always-failing probe against
`db:5432` with `timeout = 1` times out after two attempts with
`elapsed = 3/2 ≥ 1`. -/
theorem c6_witness :
    out6.result.success = false ∧ w6.timeout ≤ out6.result.elapsed ∧
      out6.result.error = some (timeoutMessage w6.timeout) ∧
      "Timeout".data <:+: (timeoutMessage w6.timeout).data ∧
      (toString w6.timeout).data <:+: (timeoutMessage w6.timeout).data :=
  c6_always_fail_times_out w6 "db:5432" (fun _ => false) (fun _ => 0) 3
    out6 (fun _ => rfl) (Or.inr (by decide)) (by decide)

/-- Invariant of the retry loop: if the current interval is the
`sl.length`-th backoff value and the sleeps so far are the backoff values
in order, then the full sleep list of any returned outcome is the capped
doubling sequence. -/
theorem waitLoop_sleeps_backoff (w : PortWaiter) (t : String)
    (probe : Nat → Bool) (dur : Nat → ℚ) :
    ∀ (fuel a : Nat) (e i : ℚ) (tc hc : Nat) (sl : List ℚ) (out : LoopOut),
      i = backoff w.initial_interval w.max_interval sl.length →
      sl = (List.range sl.length).map
        (backoff w.initial_interval w.max_interval) →
      waitLoop w t probe dur fuel a e i tc hc sl = some out →
      out.sleeps = (List.range out.sleeps.length).map
        (backoff w.initial_interval w.max_interval) := by
  intro fuel
  induction fuel with
  | zero =>
    intro a e i tc hc sl out _ _ h
    exact absurd h (by simp [waitLoop])
  | succ n ih =>
    intro a e i tc hc sl out hi hsl h
    have hlen : (sl ++ [i]).length = sl.length + 1 := by simp
    have hi2 : min (i * 2) w.max_interval =
        backoff w.initial_interval w.max_interval (sl ++ [i]).length := by
      rw [hlen, backoff, ← hi]
    have hsl2 : sl ++ [i] = (List.range (sl ++ [i]).length).map
        (backoff w.initial_interval w.max_interval) := by
      rw [hlen, List.range_succ, List.map_append, ← hsl, List.map_cons,
        List.map_nil, ← hi]
    simp only [waitLoop] at h
    split at h
    · split at h
      · split at h
        · exact Option.some.inj h ▸ hsl
        · exact ih (a + 1) _ _ _ _ _ out hi2 hsl2 h
      · split at h
        · exact Option.some.inj h ▸ hsl
        · split at h
          · split at h
            · exact Option.some.inj h ▸ hsl
            · exact ih (a + 1) _ _ _ _ _ out hi2 hsl2 h
          · exact Option.some.inj h ▸ hsl
    · exact Option.some.inj h ▸ hsl

unseal Rat.add Rat.mul Rat.inv Rat.sub in
/-- The first six backoff values for `initialInterval = 0.5`,
`maxInterval = 5.0`. -/
theorem backoff_first_six :
    (List.range 6).map (backoff (1/2 : ℚ) 5) = [1/2, 1, 2, 4, 5, 5] := by
  decide

/-- Claim C7: within one `wait_for_target` run the sleep intervals are
exactly the capped doubling sequence — the k-th sleep is
`backoff initialInterval maxInterval k`, where `backoff` starts at
`initialInterval` and steps by `min(interval * 2, maxInterval)`; for
`initialInterval = 0.5`, `maxInterval = 5.0` the sequence starts
`0.5, 1, 2, 4, 5, 5`. -/
theorem c7_backoff_sequence (w : PortWaiter) (t : String)
    (probe : Nat → Bool) (dur : Nat → ℚ) (fuel : Nat) (out : LoopOut)
    (h : wait_for_target w t probe dur fuel = some out) :
    out.sleeps = (List.range out.sleeps.length).map
      (backoff w.initial_interval w.max_interval) ∧
    (List.range 6).map (backoff (1/2 : ℚ) 5) = [1/2, 1, 2, 4, 5, 5] :=
  ⟨waitLoop_sleeps_backoff w t probe dur fuel 0 0 w.initial_interval 0 0 []
      out rfl rfl h,
   backoff_first_six⟩

unseal Rat.add Rat.mul Rat.inv Rat.sub in
/-- Witness for C7 on a concrete run: three failed attempts with
`timeout = 2` sleep `0.5, 1, 2`. -/
theorem c7_witness :
    out7.sleeps = (List.range out7.sleeps.length).map
      (backoff w7.initial_interval w7.max_interval) ∧
    (List.range 6).map (backoff (1/2 : ℚ) 5) = [1/2, 1, 2, 4, 5, 5] :=
  c7_backoff_sequence w7 "web:6379" (fun _ => false) (fun _ => 0) 4 out7
    (by decide)

/-- The timeout message is never the parse-error message (they start with
different characters). -/
theorem timeoutMessage_ne_invalid (q : ℚ) :
    timeoutMessage q ≠ invalidTargetMessage := by
  intro hcontra
  have h1 : (timeoutMessage q).data.head? = invalidTargetMessage.data.head? := by
    rw [hcontra]
  rw [timeoutMessage, String.data_append, String.data_append] at h1
  rw [show ("Timeout after ").data = 'T' :: "imeout after ".data from rfl] at h1
  rw [show invalidTargetMessage.data =
    'I' :: "nvalid target format. Use host:port or http(s)://url".data
    from rfl] at h1
  simp only [List.cons_append, List.head?_cons, Option.some.injEq] at h1
  exact absurd h1 (by decide)

/-- On an HTTP-dispatched target the loop never calls `check_tcp_port`,
its `check_http_endpoint` call count never decreases, and it never reports
the parse error. -/
theorem waitLoop_http_calls (w : PortWaiter) (t : String)
    (probe : Nat → Bool) (dur : Nat → ℚ) (hh : isHttpTarget t = true) :
    ∀ (fuel a : Nat) (e i : ℚ) (tc hc : Nat) (sl : List ℚ) (out : LoopOut),
      waitLoop w t probe dur fuel a e i tc hc sl = some out →
      out.tcpCalls = tc ∧ hc ≤ out.httpCalls ∧
        out.result.error ≠ some invalidTargetMessage := by
  intro fuel
  induction fuel with
  | zero => intro a e i tc hc sl out h; exact absurd h (by simp [waitLoop])
  | succ n ih =>
    intro a e i tc hc sl out h
    simp only [waitLoop] at h
    split at h
    · split at h
      · exact Option.some.inj h ▸ ⟨rfl, Nat.le_succ hc, by simp⟩
      · obtain ⟨h1, h2, h3⟩ := ih (a + 1) _ _ _ _ _ out h
        exact ⟨h1, Nat.le_of_succ_le h2, h3⟩
    · refine Option.some.inj h ▸ ⟨rfl, Nat.le_refl hc,
        fun hx => timeoutMessage_ne_invalid w.timeout (Option.some.inj hx)⟩

/-- On a non-HTTP target the loop never calls `check_http_endpoint`. -/
theorem waitLoop_nonhttp_calls (w : PortWaiter) (t : String)
    (probe : Nat → Bool) (dur : Nat → ℚ) (hh : isHttpTarget t = false) :
    ∀ (fuel a : Nat) (e i : ℚ) (tc hc : Nat) (sl : List ℚ) (out : LoopOut),
      waitLoop w t probe dur fuel a e i tc hc sl = some out →
      out.httpCalls = hc := by
  intro fuel
  induction fuel with
  | zero => intro a e i tc hc sl out h; exact absurd h (by simp [waitLoop])
  | succ n ih =>
    intro a e i tc hc sl out h
    simp only [waitLoop] at h
    split at h
    · rw [if_neg (by simp [hh])] at h
      split at h
      · exact Option.some.inj h ▸ rfl
      · split at h
        · split at h
          · exact Option.some.inj h ▸ rfl
          · exact ih (a + 1) _ _ _ _ _ out h
        · exact Option.some.inj h ▸ rfl
    · exact Option.some.inj h ▸ rfl

/-- Claim C10: `wait_for_target` dispatches to the HTTP probe exactly when
the target starts with `http://` or `https://` — on HTTP targets the TCP
probe is never called, the HTTP probe is called at least once, and the
parse error can never be reported; on every other target the HTTP probe is
never called and the target is split at its LAST colon, as the concrete
`rsplit` fact shows. -/
theorem c10_dispatch (w : PortWaiter) (t : String) (probe : Nat → Bool)
    (dur : Nat → ℚ) (fuel : Nat) (out : LoopOut) (hT : 0 < w.timeout)
    (h : wait_for_target w t probe dur fuel = some out) :
    (if isHttpTarget t = true then
       out.tcpCalls = 0 ∧ 1 ≤ out.httpCalls ∧
         out.result.error ≠ some invalidTargetMessage
     else out.httpCalls = 0) ∧
    rsplitColon "host:8080:extra" = some ("host:8080", "extra") := by
  refine ⟨?_, by decide⟩
  by_cases hh : isHttpTarget t = true
  · rw [if_pos hh]
    cases fuel with
    | zero => exact absurd h (by simp [wait_for_target, waitLoop])
    | succ n =>
      simp only [wait_for_target, waitLoop, Nat.zero_add] at h
      rw [if_pos hT, if_pos hh] at h
      split at h
      · exact Option.some.inj h ▸ ⟨rfl, Nat.le_refl 1, by simp⟩
      · obtain ⟨h1, h2, h3⟩ :=
          waitLoop_http_calls w t probe dur hh n 1 _ _ _ _ _ out h
        exact ⟨h1, h2, h3⟩
  · rw [if_neg hh]
    have hh2 : isHttpTarget t = false := by simp at hh; exact hh
    exact waitLoop_nonhttp_calls w t probe dur hh2 fuel 0 0
      w.initial_interval 0 0 [] out h

unseal Rat.add Rat.mul Rat.inv Rat.sub in
/-- Witness for C10 on a concrete HTTP run. -/
theorem c10_witness :
    (if isHttpTarget "http://api:8080/health" = true then
       out10.tcpCalls = 0 ∧ 1 ≤ out10.httpCalls ∧
         out10.result.error ≠ some invalidTargetMessage
     else out10.httpCalls = 0) ∧
    rsplitColon "host:8080:extra" = some ("host:8080", "extra") :=
  c10_dispatch {} "http://api:8080/health" (fun _ => true) (fun _ => 0) 1
    out10 (by decide) (by decide)

/-- The `results` accumulator of the collection loop is a pure prefix. -/
theorem as_completed_loop_append (m : Bool) :
    ∀ (l acc : List WaitResult),
      as_completed_loop m l acc = acc ++ as_completed_loop m l [] := by
  intro l
  induction l with
  | nil => intro acc; simp [as_completed_loop]
  | cons r tl ih =>
    intro acc
    simp only [as_completed_loop]
    by_cases hc : (!m && r.success) = true
    · rw [if_pos hc, if_pos hc]; simp
    · rw [if_neg hc, if_neg hc, ih (acc ++ [r]), ih ([] ++ [r])]; simp

/-- In ALL mode the collection loop consumes the whole completion
sequence. -/
theorem as_completed_loop_all (l : List WaitResult) :
    as_completed_loop true l [] = l := by
  suffices h : ∀ acc, as_completed_loop true l acc = acc ++ l by
    simpa using h []
  induction l with
  | nil => intro acc; simp [as_completed_loop]
  | cons r tl ih =>
    intro acc
    simp only [as_completed_loop]
    rw [if_neg (by simp), ih (acc ++ [r])]
    simp

/-- When some completed outcome is successful, the first such outcome
heads the remainder after the failing prefix. -/
theorem dropWhile_success (l : List WaitResult)
    (hwin : l.any (fun r => r.success) = true) :
    ∃ x rest, l.dropWhile (fun r => !r.success) = x :: rest ∧
      x.success = true := by
  induction l with
  | nil => simp at hwin
  | cons r tl ih =>
    by_cases hr : r.success = true
    · exact ⟨r, tl, by simp [List.dropWhile_cons, hr], hr⟩
    · have hwin2 : tl.any (fun r => r.success) = true := by
        rw [List.any_cons, Bool.or_eq_true] at hwin
        exact hwin.resolve_left hr
      obtain ⟨x, rest, hx, hs⟩ := ih hwin2
      exact ⟨x, rest, by simp [List.dropWhile_cons, hr, hx], hs⟩

/-- In ANY mode, as soon as a successful outcome arrives the loop stops:
it returns the failing prefix of the completion order followed by the
first successful outcome. -/
theorem as_completed_loop_any (l : List WaitResult)
    (hwin : l.any (fun r => r.success) = true) :
    as_completed_loop false l [] =
      l.takeWhile (fun r => !r.success) ++
        (l.dropWhile (fun r => !r.success)).take 1 := by
  induction l with
  | nil => simp at hwin
  | cons r tl ih =>
    simp only [as_completed_loop]
    by_cases hr : r.success = true
    · rw [if_pos (by simp [hr])]
      simp [List.takeWhile_cons, List.dropWhile_cons, hr]
    · rw [if_neg (by simp [hr])]
      have hwin2 : tl.any (fun r => r.success) = true := by
        rw [List.any_cons, Bool.or_eq_true] at hwin
        exact hwin.resolve_left hr
      rw [as_completed_loop_append false tl ([] ++ [r]), ih hwin2]
      simp [List.takeWhile_cons, List.dropWhile_cons, hr]

/-- Permutations preserve `List.all`. -/
theorem perm_all_eq {l1 l2 : List WaitResult} (p : WaitResult → Bool)
    (h : l1.Perm l2) : l1.all p = l2.all p := by
  induction h with
  | nil => rfl
  | cons x _ ih => simp [List.all_cons, ih]
  | swap x y l =>
    simp only [List.all_cons]
    rw [← Bool.and_assoc, Bool.and_comm (p y) (p x), Bool.and_assoc]
  | trans _ _ ih1 ih2 => rw [ih1, ih2]

/-- Claim C2: in ALL mode, for every non-empty target list,
`wait_for_multiple` returns normally with the whole completion sequence —
one Outcome per target, whatever the individual successes — and the
overall success the CLI reports is the conjunction of all the Outcomes'
success flags. -/
theorem c2_all_mode (outcomes completed : List WaitResult)
    (hne : outcomes ≠ []) (hperm : completed.Perm outcomes) :
    wait_for_multiple outcomes completed true = Except.ok completed ∧
    completed.length = outcomes.length ∧
    overall_success false completed =
      outcomes.all (fun r => r.success) := by
  refine ⟨?_, hperm.length_eq, ?_⟩
  · rw [wait_for_multiple,
      if_neg (fun hl => hne (List.length_eq_zero.mp hl)),
      as_completed_loop_all]
  · rw [overall_success, if_neg (by simp)]
    exact perm_all_eq _ hperm

unseal Rat.add Rat.mul Rat.inv Rat.sub in
/-- Witness for C2: targets `[success, timeout]` completing in the order
`[timeout, success]` — both Outcomes are returned and the overall success
is `false`, the conjunction. -/
theorem c2_witness :
    wait_for_multiple [ok2, bad2] [bad2, ok2] true =
      Except.ok [bad2, ok2] ∧
    ([bad2, ok2] : List WaitResult).length =
      ([ok2, bad2] : List WaitResult).length ∧
    overall_success false [bad2, ok2] =
      ([ok2, bad2] : List WaitResult).all (fun r => r.success) :=
  c2_all_mode [ok2, bad2] [bad2, ok2] (List.cons_ne_nil _ _) (by decide)

/-- Claim C1: in ANY mode, as soon as one target's loop reports success,
`wait_for_multiple` returns normally with exactly the Outcomes collected
so far — the failing prefix of the completion order (the loops that had
already finished) plus the single winning Outcome — abandoning the rest,
and the overall success the CLI reports, the disjunction of the returned
flags, is `true`. -/
theorem c1_any_mode (outcomes completed : List WaitResult)
    (hperm : completed.Perm outcomes)
    (hwin : completed.any (fun r => r.success) = true) :
    wait_for_multiple outcomes completed false =
      Except.ok (completed.takeWhile (fun r => !r.success) ++
        (completed.dropWhile (fun r => !r.success)).take 1) ∧
    (completed.takeWhile (fun r => !r.success)).all
      (fun r => !r.success) = true ∧
    ((completed.dropWhile (fun r => !r.success)).take 1).all
      (fun r => r.success) = true ∧
    ((completed.dropWhile (fun r => !r.success)).take 1).length = 1 ∧
    overall_success true (completed.takeWhile (fun r => !r.success) ++
      (completed.dropWhile (fun r => !r.success)).take 1) = true := by
  have hne : outcomes ≠ [] := by
    intro hnil
    rw [hnil] at hperm
    rw [hperm.eq_nil] at hwin
    simp at hwin
  obtain ⟨x, rest, hx, hs⟩ := dropWhile_success completed hwin
  refine ⟨?_, ?_, ?_, ?_, ?_⟩
  · rw [wait_for_multiple,
      if_neg (fun hl => hne (List.length_eq_zero.mp hl)),
      as_completed_loop_any completed hwin]
  · refine List.all_eq_true.mpr ?_
    intro r hr
    have hpr := List.mem_takeWhile_imp hr
    simpa using hpr
  · rw [hx]; simp [hs]
  · rw [hx]; simp
  · rw [overall_success]
    simp [List.any_append, hx, hs]

unseal Rat.add Rat.mul Rat.inv Rat.sub in
/-- Witness for C1: targets `[success(fast), timeout(slow)]` with the fast
success completing first — the call returns only the winner and the
overall success is `true`. -/
theorem c1_witness :
    wait_for_multiple [fast1, slow1] [fast1, slow1] false =
      Except.ok (([fast1, slow1].takeWhile (fun r => !r.success)) ++
        (([fast1, slow1].dropWhile (fun r => !r.success)).take 1)) ∧
    (([fast1, slow1] : List WaitResult).takeWhile
      (fun r => !r.success)).all (fun r => !r.success) = true ∧
    ((([fast1, slow1] : List WaitResult).dropWhile
      (fun r => !r.success)).take 1).all (fun r => r.success) = true ∧
    ((([fast1, slow1] : List WaitResult).dropWhile
      (fun r => !r.success)).take 1).length = 1 ∧
    overall_success true
      (([fast1, slow1].takeWhile (fun r => !r.success)) ++
        (([fast1, slow1].dropWhile (fun r => !r.success)).take 1)) =
      true :=
  c1_any_mode [fast1, slow1] [fast1, slow1] (List.Perm.refl _) (by decide)
